import Mathlib

/-!
Shallow embedding of the `conscious-spending` tax and household calculation
engine (`js/utils/tax-calculator.js`, `js/main.js` HouseholdCalculator,
`js/core/scenario-manager.js`), with verification of its specification.

JS numbers are modelled as rationals (`ℚ`).  `Math.round` on a finite
non-negative value rounds half away from zero toward +∞, i.e. `⌊x + 1/2⌋`;
this is `jsRound` below.  A JS division whose result would be non-finite
(`NaN` or `±Infinity`, from a zero divisor) is modelled by `jsDiv`
returning `Option.none`.  A thrown JS exception (including the `TypeError`
raised by property access or iteration on `undefined`) is modelled by
`Except.error`.
-/

namespace ConsciousSpending

/-- `Math.round x` for finite `x`: round half toward positive infinity. -/
def jsRound (x : ℚ) : ℤ := ⌊x + 1/2⌋

/-- `Math.round (x * 100) / 100`: round to the cent, as done throughout
`tax-calculator.js`. -/
def roundCents (x : ℚ) : ℚ := (jsRound (x * 100) : ℚ) / 100

/-- JS division, `Option.none` when the result is non-finite (zero divisor). -/
def jsDiv (a b : ℚ) : Option ℚ := if b = 0 then Option.none else some (a / b)

/-- One progressive tax bracket; `max = Option.none` models the literal
`Infinity` upper bound of the last bracket of each table. -/
structure Bracket where
  min : ℚ
  max : Option ℚ
  rate : ℚ
deriving DecidableEq

/-- `Math.min taxableIncome bracket.max`, where `min x Infinity = x`. -/
def Bracket.cap (b : Bracket) (x : ℚ) : ℚ :=
  match b.max with
  | Option.none => x
  | some m => Min.min x m

/-- The amount one loop iteration of `calculateFederalTax` (and of the
progressive branch of `calculateStateTax`) adds for bracket `b`:
`if (taxableIncome > bracket.min) tax += (Math.min(taxableIncome, bracket.max) - bracket.min) * bracket.rate`. -/
def bracketTax (taxableIncome : ℚ) (b : Bracket) : ℚ :=
  if b.min < taxableIncome then (b.cap taxableIncome - b.min) * b.rate else 0

/-- The accumulated `tax` after the bracket loop. -/
def bracketSum (brackets : List Bracket) (taxableIncome : ℚ) : ℚ :=
  (brackets.map (bracketTax taxableIncome)).sum

/-- 2025 federal brackets, `single` table (source lines 10-18). -/
def singleBrackets : List Bracket :=
  [⟨0, some 11550, 10/100⟩, ⟨11550, some 46650, 12/100⟩,
   ⟨46650, some 100525, 22/100⟩, ⟨100525, some 191950, 24/100⟩,
   ⟨191950, some 243725, 32/100⟩, ⟨243725, some 609350, 35/100⟩,
   ⟨609350, Option.none, 37/100⟩]

/-- 2025 federal brackets, `marriedFilingJointly` table. -/
def marriedFilingJointlyBrackets : List Bracket :=
  [⟨0, some 23100, 10/100⟩, ⟨23100, some 93300, 12/100⟩,
   ⟨93300, some 201050, 22/100⟩, ⟨201050, some 383900, 24/100⟩,
   ⟨383900, some 487450, 32/100⟩, ⟨487450, some 731200, 35/100⟩,
   ⟨731200, Option.none, 37/100⟩]

/-- 2025 federal brackets, `marriedFilingSeparately` table. -/
def marriedFilingSeparatelyBrackets : List Bracket :=
  [⟨0, some 11550, 10/100⟩, ⟨11550, some 46650, 12/100⟩,
   ⟨46650, some 100525, 22/100⟩, ⟨100525, some 191950, 24/100⟩,
   ⟨191950, some 243725, 32/100⟩, ⟨243725, some 365600, 35/100⟩,
   ⟨365600, Option.none, 37/100⟩]

/-- 2025 federal brackets, `headOfHousehold` table. -/
def headOfHouseholdBrackets : List Bracket :=
  [⟨0, some 16550, 10/100⟩, ⟨16550, some 63100, 12/100⟩,
   ⟨63100, some 100500, 22/100⟩, ⟨100500, some 191950, 24/100⟩,
   ⟨191950, some 243700, 32/100⟩, ⟨243700, some 609350, 35/100⟩,
   ⟨609350, Option.none, 37/100⟩]

/-- `this.federalBrackets[filingStatus]`: JS object lookup, `Option.none`
for a key absent from the table (JS `undefined`). -/
def federalBrackets (filingStatus : String) : Option (List Bracket) :=
  if filingStatus = "single" then some singleBrackets
  else if filingStatus = "marriedFilingJointly" then some marriedFilingJointlyBrackets
  else if filingStatus = "marriedFilingSeparately" then some marriedFilingSeparatelyBrackets
  else if filingStatus = "headOfHousehold" then some headOfHouseholdBrackets
  else Option.none

/-- `this.standardDeductions[filingStatus]` (source lines 49-54). -/
def standardDeductions (filingStatus : String) : Option ℚ :=
  if filingStatus = "single" then some 15000
  else if filingStatus = "marriedFilingJointly" then some 30000
  else if filingStatus = "marriedFilingSeparately" then some 15000
  else if filingStatus = "headOfHousehold" then some 22500
  else Option.none

/-- `getStandardDeduction`: lookup with `|| this.standardDeductions.single`
fallback (all configured values are nonzero, so JS truthiness of a present
value never triggers the fallback). -/
def getStandardDeduction (filingStatus : String) : ℚ :=
  (standardDeductions filingStatus).getD 15000

/-- 2025 FICA rates (source lines 57-62). -/
def socialSecurityRate : ℚ := 62/1000

/-- Medicare rate, 1.45%. -/
def medicareRate : ℚ := 145/10000

/-- Additional Medicare rate, 0.9% on wages over 200000. -/
def additionalMedicareRate : ℚ := 9/1000

/-- 2025 Social Security wage base limit. -/
def socialSecurityWageBase : ℚ := 176100

/-- A state's tax rule: the tagged variants of `this.stateTaxRates`. -/
inductive StateRule where
  | none
  | flat (rate : ℚ)
  | progressive (brackets : List Bracket)
deriving DecidableEq

/-- California progressive brackets (source lines 89-102). -/
def caBrackets : List Bracket :=
  [⟨0, some 10099, 1/100⟩, ⟨10099, some 23942, 2/100⟩,
   ⟨23942, some 37788, 4/100⟩, ⟨37788, some 52455, 6/100⟩,
   ⟨52455, some 66295, 8/100⟩, ⟨66295, some 338639, 93/1000⟩,
   ⟨338639, some 406364, 103/1000⟩, ⟨406364, some 677278, 113/1000⟩,
   ⟨677278, Option.none, 123/1000⟩]

/-- New York progressive brackets (source lines 103-116). -/
def nyBrackets : List Bracket :=
  [⟨0, some 8500, 4/100⟩, ⟨8500, some 11700, 45/1000⟩,
   ⟨11700, some 13900, 525/10000⟩, ⟨13900, some 80650, 585/10000⟩,
   ⟨80650, some 215400, 625/10000⟩, ⟨215400, some 1077550, 685/10000⟩,
   ⟨1077550, some 5000000, 965/10000⟩, ⟨5000000, some 25000000, 103/1000⟩,
   ⟨25000000, Option.none, 109/1000⟩]

/-- `this.stateTaxRates[state]` (source lines 65-117). -/
def stateTaxRates (state : String) : Option StateRule :=
  if state = "AK" then some StateRule.none
  else if state = "FL" then some StateRule.none
  else if state = "NV" then some StateRule.none
  else if state = "NH" then some StateRule.none
  else if state = "SD" then some StateRule.none
  else if state = "TN" then some StateRule.none
  else if state = "TX" then some StateRule.none
  else if state = "WA" then some StateRule.none
  else if state = "WY" then some StateRule.none
  else if state = "CO" then some (StateRule.flat (44/1000))
  else if state = "IL" then some (StateRule.flat (495/10000))
  else if state = "IN" then some (StateRule.flat (30/1000))
  else if state = "IA" then some (StateRule.flat (38/1000))
  else if state = "KY" then some (StateRule.flat (45/1000))
  else if state = "MI" then some (StateRule.flat (425/10000))
  else if state = "NC" then some (StateRule.flat (45/1000))
  else if state = "PA" then some (StateRule.flat (307/10000))
  else if state = "UT" then some (StateRule.flat (485/10000))
  else if state = "CA" then some (StateRule.progressive caBrackets)
  else if state = "NY" then some (StateRule.progressive nyBrackets)
  else Option.none

/-- `calculateFederalTax(taxableIncome, filingStatus)` (source lines 123-138):
throws on an unknown filing status, otherwise sums the bracket amounts and
rounds to the cent. -/
def calculateFederalTax (taxableIncome : ℚ) (filingStatus : String) : Except String ℚ :=
  match federalBrackets filingStatus with
  | Option.none => Except.error ("Invalid filing status: " ++ filingStatus)
  | some brackets => Except.ok (roundCents (bracketSum brackets taxableIncome))

/-- `calculateStateTax(taxableIncome, state)` (source lines 143-170).
The unknown-state default is an unrounded flat 5%; the flat branch is also
unrounded; only the progressive branch rounds to the cent. -/
def calculateStateTax (taxableIncome : ℚ) (state : String) : ℚ :=
  match stateTaxRates state with
  | Option.none => taxableIncome * (5/100)
  | some StateRule.none => 0
  | some (StateRule.flat rate) => taxableIncome * rate
  | some (StateRule.progressive brackets) => roundCents (bracketSum brackets taxableIncome)

/-- The FICA breakdown object returned by `calculateFICA`. -/
structure Fica where
  socialSecurity : ℚ
  medicare : ℚ
  additionalMedicare : ℚ
  total : ℚ
deriving DecidableEq

/-- `calculateFICA(grossWages)` (source lines 175-194).  Note `total`
rounds the sum of the three UNROUNDED component taxes. -/
def calculateFICA (grossWages : ℚ) : Fica :=
  let socialSecurityWages := min grossWages socialSecurityWageBase
  let socialSecurityTax := socialSecurityWages * socialSecurityRate
  let medicareTax := grossWages * medicareRate
  let additionalMedicareTax :=
    if 200000 < grossWages then (grossWages - 200000) * additionalMedicareRate else 0
  { socialSecurity := roundCents socialSecurityTax
    medicare := roundCents medicareTax
    additionalMedicare := roundCents additionalMedicareTax
    total := roundCents (socialSecurityTax + medicareTax + additionalMedicareTax) }

/-- `calculateEffectiveRate(totalTax, grossIncome)` (source lines 206-208). -/
def calculateEffectiveRate (totalTax grossIncome : ℚ) : ℚ :=
  if 0 < grossIncome then totalTax / grossIncome * 100 else 0

/-- The rate left in the accumulator after
`for (bracket of brackets) if (taxableIncome > bracket.min) r = bracket.rate`. -/
def lastRateBelow (brackets : List Bracket) (taxableIncome : ℚ) : ℚ :=
  brackets.foldl (fun r b => if b.min < taxableIncome then b.rate else r) 0

/-- `calculateMarginalRate(taxableIncome, filingStatus, state)` (source
lines 213-242).  For an unknown filing status the JS code iterates
`for (const bracket of undefined)`, which throws a `TypeError`; that throw
is the `Except.error` branch. -/
def calculateMarginalRate (taxableIncome : ℚ) (filingStatus state : String) :
    Except String ℚ :=
  match federalBrackets filingStatus with
  | Option.none =>
      Except.error ("TypeError: this.federalBrackets[" ++ filingStatus ++ "] is not iterable")
  | some brackets =>
    let federalMarginalRate := lastRateBelow brackets taxableIncome
    let stateMarginalRate :=
      match stateTaxRates state with
      | Option.none => 0
      | some StateRule.none => 0
      | some (StateRule.flat rate) => rate
      | some (StateRule.progressive sb) => lastRateBelow sb taxableIncome
    Except.ok ((federalMarginalRate + stateMarginalRate) * 100)

/-- The object returned by `calculateAllTaxes`. -/
structure TaxResult where
  grossIncome : ℚ
  preTexDeductions : ℚ
  standardDeduction : ℚ
  taxableIncome : ℚ
  federalTax : ℚ
  stateTax : ℚ
  fica : Fica
  totalTax : ℚ
  netIncome : ℚ
  effectiveRate : ℚ
  marginalRate : ℚ
deriving DecidableEq

/-- `calculateAllTaxes(grossIncome, preTexDeductions, filingStatus, state)`
(source lines 247-273). -/
def calculateAllTaxes (grossIncome preTexDeductions : ℚ) (filingStatus state : String) :
    Except String TaxResult :=
  let standardDeduction := getStandardDeduction filingStatus
  let taxableIncome := max 0 (grossIncome - preTexDeductions - standardDeduction)
  match calculateFederalTax taxableIncome filingStatus with
  | Except.error e => Except.error e
  | Except.ok federalTax =>
    let stateTax := calculateStateTax taxableIncome state
    let fica := calculateFICA (grossIncome - preTexDeductions)
    let totalTax := federalTax + stateTax + fica.total
    let netIncome := grossIncome - preTexDeductions - totalTax
    match calculateMarginalRate taxableIncome filingStatus state with
    | Except.error e => Except.error e
    | Except.ok marginalRate =>
      Except.ok
        { grossIncome := grossIncome
          preTexDeductions := preTexDeductions
          standardDeduction := standardDeduction
          taxableIncome := taxableIncome
          federalTax := federalTax
          stateTax := stateTax
          fica := fica
          totalTax := totalTax
          netIncome := netIncome
          effectiveRate := calculateEffectiveRate totalTax grossIncome
          marginalRate := marginalRate }

/-!
Embedding of the `HouseholdCalculator` class of `js/main.js` (lines
1955-2326).  A JS object field that may be absent (`undefined`) is an
`Option`; accessing a property of an `undefined` value throws a
`TypeError`, modelled by `Except.error`.
-/

/-- A person's income record (`scenario.income.person1` / `person2`).
`preTexDeductions` holds the `Object.values` of the deduction mapping
(the reduce adds `amount || 0`, the identity on rationals). -/
structure Person where
  name : Option String
  salary : Option ℚ
  bonus : Option ℚ
  otherIncome : Option ℚ
  payFrequency : Option String
  preTexDeductions : Option (List ℚ)

/-- `scenario.household.location`. -/
structure Location where
  state : String

/-- `scenario.household`. -/
structure Household where
  location : Location
  filingStatus : String

/-- `scenario.income`. -/
structure Income where
  person1 : Option Person
  person2 : Option Person

/-- A node of the nested expense structure walked by
`calculateCategoryTotal`: a node is a leaf exactly when it exposes an
`amount` field (`cat[key].amount !== undefined`), otherwise traversal
recurses into its child objects.  Object keys play no role in the sums and
are not modelled. -/
inductive CatNode where
  | leaf (amount : ℚ) (assignedTo : String)
  | branch (children : List CatNode)

/-- `expenses.ramitCategories`, the four top-level branches. -/
structure RamitCategories where
  fixedCosts : CatNode
  investments : CatNode
  savings : CatNode
  guiltFreeSpending : CatNode

/-- `scenario.expenses`. -/
structure Expenses where
  ramitCategories : RamitCategories

/-- A scenario as consumed by the calculator.  `metadata` is irrelevant to
calculation and omitted; `household` is always present in every scenario
the app constructs. -/
structure Scenario where
  household : Household
  income : Option Income
  expenses : Option Expenses

/-- The body of `processItem` inside `calculateCategoryTotal` (main.js
lines 2081-2094).  `if (item.amount)` skips a zero amount; `if (!person)`
also fires for an empty-string filter (JS falsiness). -/
def processItem (person : Option String) (amount : ℚ) (assignedTo : String) : ℚ :=
  if amount = 0 then 0
  else
    match person with
    | Option.none => amount
    | some p =>
      if p = "" then amount
      else if assignedTo = p then amount
      else if assignedTo = "shared" then amount / 2
      else 0

mutual

/-- `calculateCategoryTotal(category, person = null)` (main.js lines
2078-2110): recursive traversal summing `processItem` over all leaves. -/
def calculateCategoryTotal : CatNode → Option String → ℚ
  | CatNode.leaf amount assignedTo, person => processItem person amount assignedTo
  | CatNode.branch children, person => catTotalList children person

/-- The traversal over the children of one object node. -/
def catTotalList : List CatNode → Option String → ℚ
  | [], _ => 0
  | c :: cs, person => calculateCategoryTotal c person + catTotalList cs person

end

/-- The `breakdown` object of `calculateHouseholdExpenses`. -/
structure HouseholdExpensesBreakdown where
  fixedCosts : ℚ
  investments : ℚ
  savings : ℚ
  guiltFreeSpending : ℚ

/-- The object returned by `calculateHouseholdExpenses`. -/
structure HouseholdExpenses where
  breakdown : HouseholdExpensesBreakdown
  total : ℚ
  monthly : ℚ
  annual : ℚ

/-- `calculateHouseholdExpenses(expenses)` (main.js lines 2056-2073).
`expenses.ramitCategories` on an absent expenses subtree throws. -/
def calculateHouseholdExpenses (expenses : Option Expenses) :
    Except String HouseholdExpenses :=
  match expenses with
  | Option.none =>
      Except.error "TypeError: Cannot read properties of undefined (reading ramitCategories)"
  | some e =>
    let categories := e.ramitCategories
    let breakdown : HouseholdExpensesBreakdown :=
      { fixedCosts := calculateCategoryTotal categories.fixedCosts Option.none
        investments := calculateCategoryTotal categories.investments Option.none
        savings := calculateCategoryTotal categories.savings Option.none
        guiltFreeSpending := calculateCategoryTotal categories.guiltFreeSpending Option.none }
    let total := breakdown.fixedCosts + breakdown.investments + breakdown.savings +
      breakdown.guiltFreeSpending
    Except.ok { breakdown := breakdown, total := total, monthly := total, annual := total * 12 }

/-- `calculateBiweeklyPay(annualNet, payFrequency)` (main.js lines
2038-2051): switch over the frequency string with a biweekly default. -/
def calculateBiweeklyPay (annualNet : ℚ) (payFrequency : Option String) : ℚ :=
  if payFrequency = some "weekly" then annualNet / 52
  else if payFrequency = some "biweekly" then annualNet / 26
  else if payFrequency = some "semimonthly" then annualNet / 24
  else if payFrequency = some "monthly" then annualNet / 12
  else annualNet / 26

/-- The per-person calculation record returned by `calculatePersonIncome`. -/
structure PersonCalc where
  name : String
  gross : ℚ
  preTexDeductions : ℚ
  federalTax : ℚ
  stateTax : ℚ
  fica : Fica
  totalTax : ℚ
  netAnnual : ℚ
  monthlyNet : ℚ
  effectiveRate : ℚ
  marginalRate : ℚ
  biweeklyNet : ℚ

/-- `getEmptyPersonCalculation()` (main.js lines 2275-2290).  The JS object
carries `fica: { total: 0 }`; the other FICA components are absent there
and modelled as 0. -/
def getEmptyPersonCalculation : PersonCalc :=
  { name := "", gross := 0, preTexDeductions := 0, federalTax := 0, stateTax := 0
    fica := { socialSecurity := 0, medicare := 0, additionalMedicare := 0, total := 0 }
    totalTax := 0, netAnnual := 0, monthlyNet := 0, effectiveRate := 0, marginalRate := 0
    biweeklyNet := 0 }

/-- `person.name || 'Unknown'`: an absent or empty name falls back. -/
def jsNameOrUnknown (name : Option String) : String :=
  match name with
  | Option.none => "Unknown"
  | some n => if n = "" then "Unknown" else n

/-- `calculatePersonIncome(person, scenario)` (main.js lines 2001-2033). -/
def calculatePersonIncome (person : Option Person) (scenario : Scenario) :
    Except String PersonCalc :=
  match person with
  | Option.none => Except.ok getEmptyPersonCalculation
  | some p =>
    let grossIncome := p.salary.getD 0 + p.bonus.getD 0 + p.otherIncome.getD 0
    let preTexDeductions :=
      match p.preTexDeductions with
      | Option.none => 0
      | some amounts => amounts.sum
    match calculateAllTaxes grossIncome preTexDeductions scenario.household.filingStatus
        scenario.household.location.state with
    | Except.error e => Except.error e
    | Except.ok taxResult =>
      Except.ok
        { name := jsNameOrUnknown p.name
          gross := grossIncome
          preTexDeductions := preTexDeductions
          federalTax := taxResult.federalTax
          stateTax := taxResult.stateTax
          fica := taxResult.fica
          totalTax := taxResult.totalTax
          netAnnual := taxResult.netIncome
          monthlyNet := taxResult.netIncome / 12
          effectiveRate := taxResult.effectiveRate
          marginalRate := taxResult.marginalRate
          biweeklyNet := calculateBiweeklyPay taxResult.netIncome p.payFrequency }

/-- One category record of `calculateRamitBreakdown`. -/
structure CategoryStat where
  amount : ℚ
  percentage : ℚ
  targetMin : ℚ
  targetMax : ℚ

/-- The object returned by `calculateRamitBreakdown`. -/
structure RamitBreakdown where
  fixedCosts : CategoryStat
  investments : CategoryStat
  savings : CategoryStat
  guiltFreeSpending : CategoryStat

/-- `calculateRamitBreakdown(expenses, netIncome)` (main.js lines
2115-2146). -/
def calculateRamitBreakdown (expenses : Option Expenses) (netIncome : ℚ) :
    Except String RamitBreakdown :=
  match expenses with
  | Option.none =>
      Except.error "TypeError: Cannot read properties of undefined (reading ramitCategories)"
  | some e =>
    let categories := e.ramitCategories
    let monthlyNet := netIncome / 12
    let fixedCosts := calculateCategoryTotal categories.fixedCosts Option.none
    let investments := calculateCategoryTotal categories.investments Option.none
    let savings := calculateCategoryTotal categories.savings Option.none
    let guiltFree := calculateCategoryTotal categories.guiltFreeSpending Option.none
    Except.ok
      { fixedCosts :=
          { amount := fixedCosts
            percentage := if 0 < monthlyNet then fixedCosts / monthlyNet * 100 else 0
            targetMin := 50, targetMax := 60 }
        investments :=
          { amount := investments
            percentage := if 0 < monthlyNet then investments / monthlyNet * 100 else 0
            targetMin := 10, targetMax := 10 }
        savings :=
          { amount := savings
            percentage := if 0 < monthlyNet then savings / monthlyNet * 100 else 0
            targetMin := 5, targetMax := 10 }
        guiltFreeSpending :=
          { amount := guiltFree
            percentage := if 0 < monthlyNet then guiltFree / monthlyNet * 100 else 0
            targetMin := 20, targetMax := 35 } }

/-- The object returned by `calculateEmergencyFundRatio` (main.js lines
2173-2185); `ratio` and `monthsCovered` divide by a possibly-zero expense
total, hence `Option ℚ` via `jsDiv`. -/
structure EmergencyFundRatio where
  recommended : ℚ
  current : ℚ
  ratio : Option ℚ
  monthsCovered : Option ℚ

/-- `calculateEmergencyFundRatio(expenses)`. -/
def calculateEmergencyFundRatio (expenses : HouseholdExpenses) : EmergencyFundRatio :=
  let monthlyExpenses := expenses.total
  let recommendedEmergencyFund := monthlyExpenses * 6
  { recommended := recommendedEmergencyFund
    current := 15000
    ratio := jsDiv 15000 recommendedEmergencyFund
    monthsCovered := jsDiv 15000 monthlyExpenses }

/-- The object returned by `calculateSummaryMetrics` (main.js lines
2151-2168); `monthsOfExpenses` floors a possibly non-finite quotient. -/
structure SummaryMetrics where
  monthlyNetIncome : ℚ
  monthlyExpenses : ℚ
  monthlySurplus : ℚ
  annualSurplus : ℚ
  savingsRate : ℚ
  monthsOfExpenses : Option ℤ
  emergencyFundRatio : EmergencyFundRatio
  debtToIncomeRatio : ℚ

/-- `calculateSummaryMetrics(person1Calc, person2Calc, householdExpenses)`. -/
def calculateSummaryMetrics (person1Calc person2Calc : PersonCalc)
    (householdExpenses : HouseholdExpenses) : SummaryMetrics :=
  let totalNetIncome := person1Calc.netAnnual + person2Calc.netAnnual
  let monthlyNetIncome := totalNetIncome / 12
  let monthlyExpenses := householdExpenses.total
  let monthlySurplus := monthlyNetIncome - monthlyExpenses
  { monthlyNetIncome := monthlyNetIncome
    monthlyExpenses := monthlyExpenses
    monthlySurplus := monthlySurplus
    annualSurplus := monthlySurplus * 12
    savingsRate :=
      if 0 < monthlyNetIncome then monthlySurplus / monthlyNetIncome * 100 else 0
    monthsOfExpenses :=
      if 0 < monthlySurplus then (jsDiv monthlyNetIncome monthlyExpenses).map (fun q => ⌊q⌋)
      else some 0
    emergencyFundRatio := calculateEmergencyFundRatio householdExpenses
    debtToIncomeRatio := 0 }

/-- The `household` aggregate of `calculateScenario` (main.js lines
1985-1991).  Its `effectiveRate` divides by the household gross WITHOUT a
zero guard, so a zero gross yields a non-finite JS number, `Option.none`
under `jsDiv`. -/
structure HouseholdAgg where
  grossIncome : ℚ
  netIncome : ℚ
  monthlyNetIncome : ℚ
  totalTaxes : ℚ
  effectiveRate : Option ℚ

/-- The full object returned by `calculateScenario`. -/
structure ScenarioResult where
  person1 : PersonCalc
  person2 : PersonCalc
  household : HouseholdAgg
  expenses : HouseholdExpenses
  ramitBreakdown : RamitBreakdown
  summary : SummaryMetrics

/-- `calculateScenario(scenario)` (main.js lines 1974-1996).  A null
scenario returns null (`Except.ok Option.none`); `scenario.income.person1`
on an absent income subtree throws before anything else is computed. -/
def calculateScenario (scenario : Option Scenario) :
    Except String (Option ScenarioResult) :=
  match scenario with
  | Option.none => Except.ok Option.none
  | some s =>
    match s.income with
    | Option.none =>
        Except.error "TypeError: Cannot read properties of undefined (reading person1)"
    | some inc =>
      match calculatePersonIncome inc.person1 s with
      | Except.error e => Except.error e
      | Except.ok person1Calc =>
        match calculatePersonIncome inc.person2 s with
        | Except.error e => Except.error e
        | Except.ok person2Calc =>
          match calculateHouseholdExpenses s.expenses with
          | Except.error e => Except.error e
          | Except.ok householdExpenses =>
            match calculateRamitBreakdown s.expenses
                (person1Calc.netAnnual + person2Calc.netAnnual) with
            | Except.error e => Except.error e
            | Except.ok ramitBreakdown =>
              Except.ok (some
                { person1 := person1Calc
                  person2 := person2Calc
                  household :=
                    { grossIncome := person1Calc.gross + person2Calc.gross
                      netIncome := person1Calc.netAnnual + person2Calc.netAnnual
                      monthlyNetIncome :=
                        (person1Calc.netAnnual + person2Calc.netAnnual) / 12
                      totalTaxes := person1Calc.totalTax + person2Calc.totalTax
                      effectiveRate :=
                        (jsDiv (person1Calc.totalTax + person2Calc.totalTax)
                          (person1Calc.gross + person2Calc.gross)).map (· * 100) }
                  expenses := householdExpenses
                  ramitBreakdown := ramitBreakdown
                  summary :=
                    calculateSummaryMetrics person1Calc person2Calc householdExpenses })

/-!
Embedding of the `ScenarioManager` class of `js/core/scenario-manager.js`.
The manager state is the in-memory keyed collection, the current-scenario
pointer, and the storage collection behind `this.storage` (whose
`deleteScenario` removes the key and returns true; its localStorage I/O
failure mode is outside this model).
-/

/-- The state a `ScenarioManager` instance owns. -/
structure MgrState where
  scenarios : List (String × Scenario)
  currentScenario : Option String
  storageScenarios : List (String × Scenario)

/-- `this.scenarios[name]`: keyed-object lookup. -/
def lookupScenario (l : List (String × Scenario)) (name : String) : Option Scenario :=
  (l.find? (fun p => p.1 == name)).map Prod.snd

/-- `setCurrentScenario(scenarioName)` (scenario-manager.js lines 199-206):
sets the pointer only when the name exists, returning whether it did. -/
def setCurrentScenario (m : MgrState) (name : String) : MgrState × Bool :=
  if (lookupScenario m.scenarios name).isSome then
    ({ m with currentScenario := some name }, true)
  else (m, false)

/-- `deleteScenario(scenarioName)` (scenario-manager.js lines 273-298):
throws before any mutation for "baseline" and for an unknown name;
otherwise removes the entry from memory and storage, and repoints the
current scenario at "baseline" when it was the deleted one.  The returned
state is the receiver's state when the call finishes (normally or by
throwing). -/
def deleteScenario (m : MgrState) (name : String) : MgrState × Except String Bool :=
  if name = "baseline" then (m, Except.error "Cannot delete baseline scenario")
  else if (lookupScenario m.scenarios name).isNone then
    (m, Except.error "Scenario does not exist")
  else
    let m1 : MgrState := { m with scenarios := m.scenarios.filter (fun p => p.1 != name) }
    let m2 : MgrState :=
      { m1 with storageScenarios := m1.storageScenarios.filter (fun p => p.1 != name) }
    if m2.currentScenario = some name then
      let res := setCurrentScenario m2 "baseline"
      (res.1, Except.ok true)
    else (m2, Except.ok true)

/-- The specification's per-bracket amount,
`max 0 (min(taxableIncome, upper) − lower) × rate`, stated independently of
the source's accumulate-while-above-the-lower-bound loop. -/
def specBracketAmt (taxableIncome : ℚ) (b : Bracket) : ℚ :=
  Max.max 0 (b.cap taxableIncome - b.min) * b.rate

/-- The empty four-branch category tree. -/
def emptyRamitCategories : RamitCategories :=
  { fixedCosts := CatNode.branch [], investments := CatNode.branch [],
    savings := CatNode.branch [], guiltFreeSpending := CatNode.branch [] }

/-- A scenario whose income subtree is missing. -/
def noIncomeScenario : Scenario :=
  { household := { location := { state := "CA" }, filingStatus := "marriedFilingJointly" }
    income := Option.none
    expenses := some { ramitCategories := emptyRamitCategories } }

/-- A scenario whose two person entries are absent: household gross is 0. -/
def zeroGrossScenario : Scenario :=
  { household := { location := { state := "CA" }, filingStatus := "marriedFilingJointly" }
    income := some { person1 := Option.none, person2 := Option.none }
    expenses := some { ramitCategories := emptyRamitCategories } }

mutual

/-- Every leaf under the node is assigned to "shared". -/
def allShared : CatNode → Bool
  | CatNode.leaf _ assignedTo => assignedTo == "shared"
  | CatNode.branch children => allSharedList children

/-- Every leaf under every node of the list is assigned to "shared". -/
def allSharedList : List CatNode → Bool
  | [] => true
  | c :: cs => allShared c && allSharedList cs

end

/-- A tree with a single shared leaf of amount 10. -/
def sharedLeafTree : CatNode := CatNode.branch [CatNode.leaf 10 "shared"]

/-!
Helper lemmas about the bracket machinery.
-/

/-- A well-formed bracket: non-negative rate, and an upper bound at or
above the lower bound.  Every table in the source satisfies this. -/
def Bracket.wf (b : Bracket) : Prop :=
  0 ≤ b.rate ∧ ∀ m, b.max = some m → b.min ≤ m

lemma singleBrackets_wf : ∀ b ∈ singleBrackets, b.wf := by
  intro b hb
  simp only [singleBrackets, List.mem_cons, List.not_mem_nil, or_false] at hb
  rcases hb with rfl|rfl|rfl|rfl|rfl|rfl|rfl <;>
    exact ⟨by norm_num, by intro m hm; cases hm <;> norm_num⟩

lemma marriedFilingJointlyBrackets_wf : ∀ b ∈ marriedFilingJointlyBrackets, b.wf := by
  intro b hb
  simp only [marriedFilingJointlyBrackets, List.mem_cons, List.not_mem_nil, or_false] at hb
  rcases hb with rfl|rfl|rfl|rfl|rfl|rfl|rfl <;>
    exact ⟨by norm_num, by intro m hm; cases hm <;> norm_num⟩

lemma marriedFilingSeparatelyBrackets_wf : ∀ b ∈ marriedFilingSeparatelyBrackets, b.wf := by
  intro b hb
  simp only [marriedFilingSeparatelyBrackets, List.mem_cons, List.not_mem_nil, or_false] at hb
  rcases hb with rfl|rfl|rfl|rfl|rfl|rfl|rfl <;>
    exact ⟨by norm_num, by intro m hm; cases hm <;> norm_num⟩

lemma headOfHouseholdBrackets_wf : ∀ b ∈ headOfHouseholdBrackets, b.wf := by
  intro b hb
  simp only [headOfHouseholdBrackets, List.mem_cons, List.not_mem_nil, or_false] at hb
  rcases hb with rfl|rfl|rfl|rfl|rfl|rfl|rfl <;>
    exact ⟨by norm_num, by intro m hm; cases hm <;> norm_num⟩

lemma caBrackets_wf : ∀ b ∈ caBrackets, b.wf := by
  intro b hb
  simp only [caBrackets, List.mem_cons, List.not_mem_nil, or_false] at hb
  rcases hb with rfl|rfl|rfl|rfl|rfl|rfl|rfl|rfl|rfl <;>
    exact ⟨by norm_num, by intro m hm; cases hm <;> norm_num⟩

lemma nyBrackets_wf : ∀ b ∈ nyBrackets, b.wf := by
  intro b hb
  simp only [nyBrackets, List.mem_cons, List.not_mem_nil, or_false] at hb
  rcases hb with rfl|rfl|rfl|rfl|rfl|rfl|rfl|rfl|rfl <;>
    exact ⟨by norm_num, by intro m hm; cases hm <;> norm_num⟩

lemma federalBrackets_wf {s : String} {bs : List Bracket}
    (h : federalBrackets s = some bs) : ∀ b ∈ bs, b.wf := by
  unfold federalBrackets at h
  split_ifs at h
  all_goals cases h
  · exact singleBrackets_wf
  · exact marriedFilingJointlyBrackets_wf
  · exact marriedFilingSeparatelyBrackets_wf
  · exact headOfHouseholdBrackets_wf

lemma stateBrackets_wf {s : String} {bs : List Bracket}
    (h : stateTaxRates s = some (StateRule.progressive bs)) : ∀ b ∈ bs, b.wf := by
  unfold stateTaxRates at h
  by_cases h1 : s = "AK"
  · rw [if_pos h1] at h; simp at h
  rw [if_neg h1] at h
  by_cases h2 : s = "FL"
  · rw [if_pos h2] at h; simp at h
  rw [if_neg h2] at h
  by_cases h3 : s = "NV"
  · rw [if_pos h3] at h; simp at h
  rw [if_neg h3] at h
  by_cases h4 : s = "NH"
  · rw [if_pos h4] at h; simp at h
  rw [if_neg h4] at h
  by_cases h5 : s = "SD"
  · rw [if_pos h5] at h; simp at h
  rw [if_neg h5] at h
  by_cases h6 : s = "TN"
  · rw [if_pos h6] at h; simp at h
  rw [if_neg h6] at h
  by_cases h7 : s = "TX"
  · rw [if_pos h7] at h; simp at h
  rw [if_neg h7] at h
  by_cases h8 : s = "WA"
  · rw [if_pos h8] at h; simp at h
  rw [if_neg h8] at h
  by_cases h9 : s = "WY"
  · rw [if_pos h9] at h; simp at h
  rw [if_neg h9] at h
  by_cases h10 : s = "CO"
  · rw [if_pos h10] at h; simp at h
  rw [if_neg h10] at h
  by_cases h11 : s = "IL"
  · rw [if_pos h11] at h; simp at h
  rw [if_neg h11] at h
  by_cases h12 : s = "IN"
  · rw [if_pos h12] at h; simp at h
  rw [if_neg h12] at h
  by_cases h13 : s = "IA"
  · rw [if_pos h13] at h; simp at h
  rw [if_neg h13] at h
  by_cases h14 : s = "KY"
  · rw [if_pos h14] at h; simp at h
  rw [if_neg h14] at h
  by_cases h15 : s = "MI"
  · rw [if_pos h15] at h; simp at h
  rw [if_neg h15] at h
  by_cases h16 : s = "NC"
  · rw [if_pos h16] at h; simp at h
  rw [if_neg h16] at h
  by_cases h17 : s = "PA"
  · rw [if_pos h17] at h; simp at h
  rw [if_neg h17] at h
  by_cases h18 : s = "UT"
  · rw [if_pos h18] at h; simp at h
  rw [if_neg h18] at h
  by_cases h19 : s = "CA"
  · rw [if_pos h19, Option.some.injEq, StateRule.progressive.injEq] at h
    subst h; exact caBrackets_wf
  rw [if_neg h19] at h
  by_cases h20 : s = "NY"
  · rw [if_pos h20, Option.some.injEq, StateRule.progressive.injEq] at h
    subst h; exact nyBrackets_wf
  rw [if_neg h20] at h
  simp at h

/-- Within a well-formed bracket, `Math.min taxableIncome bracket.max` stays
at or above the lower bound once income exceeds it. -/
lemma Bracket.min_le_cap {b : Bracket} (hb : b.wf) {x : ℚ} (hx : b.min < x) :
    b.min ≤ b.cap x := by
  unfold Bracket.cap
  cases hm : b.max with
  | none => exact le_of_lt hx
  | some m => exact le_min (le_of_lt hx) (hb.2 m hm)

lemma bracketTax_nonneg {b : Bracket} (hb : b.wf) (x : ℚ) : 0 ≤ bracketTax x b := by
  unfold bracketTax
  split_ifs with h
  · exact mul_nonneg (sub_nonneg.mpr (Bracket.min_le_cap hb h)) hb.1
  · exact le_refl 0

lemma Bracket.cap_mono (b : Bracket) {x y : ℚ} (hxy : x ≤ y) : b.cap x ≤ b.cap y := by
  unfold Bracket.cap
  cases b.max with
  | none => exact hxy
  | some m => exact min_le_min hxy (le_refl m)

lemma bracketTax_mono {b : Bracket} (hb : b.wf) {x y : ℚ} (hxy : x ≤ y) :
    bracketTax x b ≤ bracketTax y b := by
  unfold bracketTax
  split_ifs with hx hy hy
  · exact mul_le_mul_of_nonneg_right (sub_le_sub_right (b.cap_mono hxy) b.min) hb.1
  · exact absurd (lt_of_lt_of_le hx hxy) hy
  · calc (0:ℚ) ≤ (b.cap y - b.min) * b.rate :=
        mul_nonneg (sub_nonneg.mpr (Bracket.min_le_cap hb hy)) hb.1
      _ = _ := rfl
  · exact le_refl 0

lemma bracketSum_mono {bs : List Bracket} (h : ∀ b ∈ bs, b.wf) {x y : ℚ} (hxy : x ≤ y) :
    bracketSum bs x ≤ bracketSum bs y :=
  List.sum_le_sum fun b hb => bracketTax_mono (h b hb) hxy

lemma roundCents_mono {x y : ℚ} (hxy : x ≤ y) : roundCents x ≤ roundCents y := by
  unfold roundCents jsRound
  have hf : ⌊x * 100 + 1/2⌋ ≤ ⌊y * 100 + 1/2⌋ :=
    Int.floor_le_floor (by linarith)
  exact div_le_div_of_nonneg_right (by exact_mod_cast hf) (by norm_num)

/-!
Claim theorems.
-/

/-- C1: for every gross income, pre-tax deduction total, filing status known
to the bracket table, and state code, `calculateAllTaxes` succeeds and its
result satisfies `netIncome + totalTax + preTexDeductions = grossIncome`
exactly. -/
theorem calculateAllTaxes_reconciliation (grossIncome preTexDeductions : ℚ)
    (filingStatus state : String) (h : (federalBrackets filingStatus).isSome = true) :
    ∃ r, calculateAllTaxes grossIncome preTexDeductions filingStatus state = Except.ok r ∧
      r.netIncome + r.totalTax + preTexDeductions = grossIncome := by
  rcases Option.isSome_iff_exists.mp h with ⟨brackets, hb⟩
  simp only [calculateAllTaxes, calculateFederalTax, calculateMarginalRate, hb]
  exact ⟨_, rfl, by ring⟩

/-- Witness for C1 at a married couple in California. -/
theorem calculateAllTaxes_reconciliation_witness :
    ∃ r, calculateAllTaxes 100000 10000 "marriedFilingJointly" "CA" = Except.ok r ∧
      r.netIncome + r.totalTax + 10000 = 100000 :=
  calculateAllTaxes_reconciliation 100000 10000 "marriedFilingJointly" "CA" (by decide)

/-- C8: deleting "baseline" always fails with the protected-scenario error
and returns the manager state unchanged, whatever the stored collection and
the current scenario are. -/
theorem deleteScenario_baseline_protected (m : MgrState) :
    deleteScenario m "baseline" = (m, Except.error "Cannot delete baseline scenario") := by
  simp [deleteScenario]

/-- C9: the per-paycheck conversion divides annual net by 52/26/24/12 for
the four recognised frequencies and by 26 for anything else. -/
theorem calculateBiweeklyPay_frequencies (annualNet : ℚ) (f : Option String)
    (hf : f ∉ [some "weekly", some "biweekly", some "semimonthly", some "monthly"]) :
    calculateBiweeklyPay annualNet (some "weekly") = annualNet / 52 ∧
    calculateBiweeklyPay annualNet (some "biweekly") = annualNet / 26 ∧
    calculateBiweeklyPay annualNet (some "semimonthly") = annualNet / 24 ∧
    calculateBiweeklyPay annualNet (some "monthly") = annualNet / 12 ∧
    calculateBiweeklyPay annualNet f = annualNet / 26 := by
  simp only [List.mem_cons, List.not_mem_nil, or_false, not_or] at hf
  obtain ⟨h1, h2, h3, h4⟩ := hf
  refine ⟨by simp [calculateBiweeklyPay], by simp [calculateBiweeklyPay],
    by simp [calculateBiweeklyPay], by simp [calculateBiweeklyPay], ?_⟩
  simp [calculateBiweeklyPay, h1, h2, h3, h4]

/-- Witness for C9 with an unrecognised "quarterly" frequency. -/
theorem calculateBiweeklyPay_frequencies_witness :
    calculateBiweeklyPay 52000 (some "weekly") = 52000 / 52 ∧
    calculateBiweeklyPay 52000 (some "biweekly") = 52000 / 26 ∧
    calculateBiweeklyPay 52000 (some "semimonthly") = 52000 / 24 ∧
    calculateBiweeklyPay 52000 (some "monthly") = 52000 / 12 ∧
    calculateBiweeklyPay 52000 (some "quarterly") = 52000 / 26 :=
  calculateBiweeklyPay_frequencies 52000 (some "quarterly") (by decide)

/-- C10: for a filing status absent from the federal bracket table,
`calculateMarginalRate` throws (the JS `for...of` over `undefined` raises a
`TypeError`) for every taxable income and state, instead of returning a
percentage. -/
theorem calculateMarginalRate_unknown_status (taxableIncome : ℚ)
    (filingStatus state : String) (h : federalBrackets filingStatus = Option.none) :
    calculateMarginalRate taxableIncome filingStatus state =
      Except.error ("TypeError: this.federalBrackets[" ++ filingStatus ++
        "] is not iterable") := by
  simp [calculateMarginalRate, h]

/-- Witness for C10 at the unknown status "divorced". -/
theorem calculateMarginalRate_unknown_status_witness :
    calculateMarginalRate 50000 "divorced" "CA" =
      Except.error ("TypeError: this.federalBrackets[" ++ "divorced" ++
        "] is not iterable") :=
  calculateMarginalRate_unknown_status 50000 "divorced" "CA" (by decide)

/-- C5: for every filing status known to the bracket table and all
`0 ≤ x ≤ y`, the federal tax at `x` is at most the federal tax at `y`:
bracket amounts are monotone and so is the final rounding. -/
theorem calculateFederalTax_mono (filingStatus : String) (x y : ℚ) (hx : 0 ≤ x)
    (hxy : x ≤ y) (h : (federalBrackets filingStatus).isSome = true) :
    ∃ tx ty, calculateFederalTax x filingStatus = Except.ok tx ∧
      calculateFederalTax y filingStatus = Except.ok ty ∧ tx ≤ ty := by
  rcases Option.isSome_iff_exists.mp h with ⟨brackets, hb⟩
  simp only [calculateFederalTax, hb]
  exact ⟨_, _, rfl, rfl, roundCents_mono (bracketSum_mono (federalBrackets_wf hb) hxy)⟩

/-- Witness for C5 at head-of-household incomes 10000 and 20000. -/
theorem calculateFederalTax_mono_witness :
    ∃ tx ty, calculateFederalTax 10000 "headOfHousehold" = Except.ok tx ∧
      calculateFederalTax 20000 "headOfHousehold" = Except.ok ty ∧ tx ≤ ty :=
  calculateFederalTax_mono "headOfHousehold" 10000 20000 (by decide) (by decide) (by decide)

lemma bracketTax_eq_spec {b : Bracket} (hb : b.wf) (ti : ℚ) :
    bracketTax ti b = specBracketAmt ti b := by
  unfold bracketTax specBracketAmt
  split_ifs with h
  · rw [max_eq_right (sub_nonneg.mpr (Bracket.min_le_cap hb h))]
  · push_neg at h
    have hcap : b.cap ti ≤ b.min := by
      unfold Bracket.cap
      cases b.max with
      | none => exact h
      | some m => exact le_trans (min_le_left ti m) h
    rw [max_eq_left (by linarith), zero_mul]

/-- C6: `calculateStateTax` dispatches on the state's tagged rule — 0 for a
no-income-tax state, `taxableIncome × rate` (unrounded) for a flat state,
the federal bracket-summation algorithm (rounded to the cent) for a
progressive state, and a flat 5% default for a state code absent from the
table — and, being a total function, it never fails. -/
theorem calculateStateTax_dispatch (taxableIncome : ℚ) (hti : 0 ≤ taxableIncome)
    (state : String) :
    (stateTaxRates state = some StateRule.none →
      calculateStateTax taxableIncome state = 0) ∧
    (∀ rate, stateTaxRates state = some (StateRule.flat rate) →
      calculateStateTax taxableIncome state = taxableIncome * rate) ∧
    (∀ brackets, stateTaxRates state = some (StateRule.progressive brackets) →
      calculateStateTax taxableIncome state =
        roundCents ((brackets.map (specBracketAmt taxableIncome)).sum)) ∧
    (stateTaxRates state = Option.none →
      calculateStateTax taxableIncome state = taxableIncome * (5/100)) := by
  refine ⟨fun h => by simp [calculateStateTax, h],
    fun rate h => by simp [calculateStateTax, h], fun brackets h => ?_,
    fun h => by simp [calculateStateTax, h]⟩
  simp only [calculateStateTax, h, bracketSum]
  exact congr_arg (fun l => roundCents l.sum)
    (List.map_congr_left fun b hb => bracketTax_eq_spec (stateBrackets_wf h b hb) taxableIncome)

/-- Witness for C6 at California with taxable income 50000. -/
theorem calculateStateTax_dispatch_witness :
    calculateStateTax 50000 "CA" = roundCents ((caBrackets.map (specBracketAmt 50000)).sum) :=
  (calculateStateTax_dispatch 50000 (by decide) "CA").2.2.1 caBrackets rfl

/-- C4 counterexample: at grossWages = 2.50 the code's `total` field is
0.19 (the rounded sum of the unrounded components 0.155 + 0.03625), while
the claim's sum of independently rounded components is 0.16 + 0.04 = 0.20. -/
theorem calculateFICA_total_counterexample :
    (calculateFICA (5/2)).total ≠
      roundCents ((calculateFICA (5/2)).socialSecurity + (calculateFICA (5/2)).medicare +
        (calculateFICA (5/2)).additionalMedicare) := by
  norm_num [calculateFICA, roundCents, jsRound, socialSecurityRate, medicareRate,
    additionalMedicareRate, socialSecurityWageBase, min_def, max_def]

/-- C4 amended: the three FICA components are as the claim states them
(each rounded to the cent independently), but `total` is the rounded sum of
the three UNROUNDED components, not of the rounded ones. -/
theorem calculateFICA_spec (grossWages : ℚ) (hg : 0 ≤ grossWages) :
    calculateFICA grossWages =
      { socialSecurity := roundCents (Min.min grossWages 176100 * (62/1000))
        medicare := roundCents (grossWages * (145/10000))
        additionalMedicare := roundCents (Max.max 0 (grossWages - 200000) * (9/1000))
        total := roundCents (Min.min grossWages 176100 * (62/1000) +
          grossWages * (145/10000) + Max.max 0 (grossWages - 200000) * (9/1000)) } := by
  have hadd : (if 200000 < grossWages then (grossWages - 200000) * (9/1000) else 0)
      = Max.max 0 (grossWages - 200000) * (9/1000) := by
    split_ifs with h
    · rw [max_eq_right (by linarith)]
    · rw [max_eq_left (by linarith), zero_mul]
  simp only [calculateFICA, socialSecurityRate, medicareRate, additionalMedicareRate,
    socialSecurityWageBase, hadd]

/-- Witness for C4's amended claim at grossWages = 250000. -/
theorem calculateFICA_spec_witness :
    calculateFICA 250000 =
      { socialSecurity := roundCents (Min.min (250000:ℚ) 176100 * (62/1000))
        medicare := roundCents ((250000:ℚ) * (145/10000))
        additionalMedicare := roundCents (Max.max 0 ((250000:ℚ) - 200000) * (9/1000))
        total := roundCents (Min.min (250000:ℚ) 176100 * (62/1000) +
          (250000:ℚ) * (145/10000) + Max.max 0 ((250000:ℚ) - 200000) * (9/1000)) } :=
  calculateFICA_spec 250000 (by decide)

/-- C2 counterexample: a scenario with a missing income subtree makes
`calculateScenario` throw (`scenario.income.person1` on `undefined`),
contradicting the claim that it returns zero figures and never raises. -/
theorem calculateScenario_missing_income_throws :
    calculateScenario (some noIncomeScenario) =
      Except.error "TypeError: Cannot read properties of undefined (reading person1)" := rfl

/-- C2 amended: a scenario whose income subtree or expenses subtree is
missing makes `calculateScenario` raise a TypeError; zero-figure
degradation happens only for a null scenario and for absent person1/person2
entries inside a present income subtree. -/
theorem calculateScenario_missing_subtree_throws (s : Scenario)
    (h : s.income = Option.none ∨ s.expenses = Option.none) :
    ∃ e, calculateScenario (some s) = Except.error e := by
  rcases h with h|h
  · exact ⟨"TypeError: Cannot read properties of undefined (reading person1)",
      by simp [calculateScenario, h]⟩
  · cases hi : s.income with
    | none => exact ⟨"TypeError: Cannot read properties of undefined (reading person1)",
        by simp [calculateScenario, hi]⟩
    | some inc =>
      cases hp1 : calculatePersonIncome inc.person1 s with
      | error e => exact ⟨e, by simp [calculateScenario, hi, hp1]⟩
      | ok p1 =>
        cases hp2 : calculatePersonIncome inc.person2 s with
        | error e => exact ⟨e, by simp [calculateScenario, hi, hp1, hp2]⟩
        | ok p2 =>
          exact ⟨"TypeError: Cannot read properties of undefined (reading ramitCategories)",
            by simp [calculateScenario, hi, hp1, hp2, calculateHouseholdExpenses, h]⟩

/-- Witness for C2's amended claim at `noIncomeScenario`. -/
theorem calculateScenario_missing_subtree_throws_witness :
    ∃ e, calculateScenario (some noIncomeScenario) = Except.error e :=
  calculateScenario_missing_subtree_throws noIncomeScenario (Or.inl rfl)

/-- C3, evaluated at the failing input: with zero household gross income the
household `effectiveRate` is `(0/0) * 100`, a non-finite JS number
(`Option.none` here), not the 0 the claim — and the code's own guarded
`calculateEffectiveRate` helper — prescribe. -/
theorem calculateScenario_zero_gross_effectiveRate :
    ∃ r, calculateScenario (some zeroGrossScenario) = Except.ok (some r) ∧
      r.household.grossIncome = 0 ∧ r.household.totalTaxes = 0 ∧
      r.household.effectiveRate = Option.none := by
  refine ⟨_, rfl, ?_, ?_, ?_⟩ <;>
    norm_num [getEmptyPersonCalculation, jsDiv]

/-- C7 counterexample: with the degenerate person filter "shared" each
shared leaf matches `item.assignedTo === person` first and is added in
full, so the filtered total equals the unfiltered total (10), not half of
it (5). -/
theorem categoryTotal_shared_filter_counterexample :
    allShared sharedLeafTree = true ∧
    calculateCategoryTotal sharedLeafTree (some "shared") ≠
      calculateCategoryTotal sharedLeafTree Option.none / 2 := by
  refine ⟨rfl, ?_⟩
  norm_num [sharedLeafTree, calculateCategoryTotal, catTotalList, processItem]

mutual

/-- Auxiliary form of the half-split property, proved by mutual recursion
with its list version. -/
theorem categoryTotal_shared_half_aux (t : CatNode) (p : String) (hp : ¬ p = "")
    (hps : ¬ p = "shared") (h : allShared t = true) :
    calculateCategoryTotal t (some p) = calculateCategoryTotal t Option.none / 2 :=
  match t with
  | CatNode.leaf amount assignedTo => by
      have hsh : assignedTo = "shared" := by simpa [allShared] using h
      subst hsh
      unfold calculateCategoryTotal processItem
      rcases eq_or_ne amount 0 with h0|h0
      · simp [h0]
      · simp only [if_neg h0, if_neg hp, if_neg (Ne.symm hps), if_pos rfl]
        simp
  | CatNode.branch children => by
      unfold calculateCategoryTotal
      exact catTotalList_shared_half_aux children p hp hps (by simpa [allShared] using h)

/-- The list form of the half-split property. -/
theorem catTotalList_shared_half_aux (ts : List CatNode) (p : String) (hp : ¬ p = "")
    (hps : ¬ p = "shared") (h : allSharedList ts = true) :
    catTotalList ts (some p) = catTotalList ts Option.none / 2 :=
  match ts with
  | [] => by simp [catTotalList]
  | c :: cs => by
      unfold catTotalList
      have h1 : allShared c = true ∧ allSharedList cs = true := by
        simpa [allSharedList, Bool.and_eq_true] using h
      rw [categoryTotal_shared_half_aux c p hp hps h1.1,
        catTotalList_shared_half_aux cs p hp hps h1.2]
      ring

end

/-- C7 amended: over a tree whose leaves are all "shared", filtering by any
person string that is truthy (non-empty) and distinct from "shared" yields
exactly half of the unfiltered total. -/
theorem categoryTotal_shared_half (t : CatNode) (p : String) (hp : ¬ p = "")
    (hps : ¬ p = "shared") (h : allShared t = true) :
    calculateCategoryTotal t (some p) = calculateCategoryTotal t Option.none / 2 :=
  categoryTotal_shared_half_aux t p hp hps h

/-- Witness for C7's amended claim: filter "person1" on the one-leaf shared
tree gives half the unfiltered total. -/
theorem categoryTotal_shared_half_witness :
    calculateCategoryTotal sharedLeafTree (some "person1") =
      calculateCategoryTotal sharedLeafTree Option.none / 2 :=
  categoryTotal_shared_half sharedLeafTree "person1" (by decide) (by decide) rfl

end ConsciousSpending
